import Mathlib

/-!
Shallow embedding of the Neverwinter Nights script object functions of the
xoreos engine reimplementation (`src/engines/nwn/script/functions_object.cpp`),
together with the collaborator pieces the specification describes: the typed
variable union, the per-object local-variable store, the object resolver and
the function context. Engine pointers are modelled by object identifiers,
object enumeration cursors by lists (an entry is `none` when the checked
downcast `ObjectContainer::toObject` fails on the yielded object), and the
`uint32` type bitmask by a natural number.
-/

namespace Xoreos

/-- Spatial position of an in-world object. Coordinates are modelled as
integers: the queries only compare Euclidean distances, and comparing exact
squared distances is equivalent to comparing the distances themselves. -/
structure Position where
  x : Int
  y : Int
  z : Int
  deriving DecidableEq

/-- Modelled from the spec: the type tags of the `Variable` tagged union of
the NWScript layer (`src/aurora/nwscript`, not part of this source tree);
the spec lists Int, Float, String and ObjectHandle among its members. -/
inductive VType where
  | tInt
  | tFloat
  | tString
  | tObject
  deriving DecidableEq

/-- Modelled from the spec: the `Variable` tagged union itself. Float values
are modelled by rationals; none of the verified functions computes with
them. An object handle is an optional identifier, `none` being the null
handle. -/
inductive VValue where
  | vInt (i : Int)
  | vFloat (f : Rat)
  | vString (s : String)
  | vObject (h : Option Nat)
  deriving DecidableEq

/-- The tag of a `Variable`. -/
def VValue.vtype : VValue → VType
  | .vInt _ => .tInt
  | .vFloat _ => .tFloat
  | .vString _ => .tString
  | .vObject _ => .tObject

/-- Modelled from the spec: each variable type's zero value. -/
def zeroValue : VType → VValue
  | .tInt => .vInt 0
  | .tFloat => .vFloat 0
  | .tString => .vString ""
  | .tObject => .vObject none

/-- Modelled from the spec: reading a `Variable` with the Int accessor;
a wrong tag yields the type's zero value, never a crash. -/
def VValue.getInt : VValue → Int
  | .vInt i => i
  | _ => 0

/-- Modelled from the spec: reading a `Variable` with the Float accessor. -/
def VValue.getFloat : VValue → Rat
  | .vFloat f => f
  | _ => 0

/-- Modelled from the spec: the per-object local-variable store, keyed by a
`(name, type)` composite. An association list whose lookup finds the most
recent binding models create-or-overwrite. -/
abbrev LocalStore := List ((String × VType) × VValue)

/-- Modelled from the spec: `get(object, name, type)`; a missing entry
returns the type's zero value. -/
def getVariable (s : LocalStore) (name : String) (t : VType) : VValue :=
  match s.lookup (name, t) with
  | some v => v
  | none => zeroValue t

/-- Modelled from the spec: `set(object, name, type, value)` creates or
overwrites the entry keyed by the name and the value's own type; the same
name under two different types holds two independent values. -/
def setVariable (s : LocalStore) (name : String) (v : VValue) : LocalStore :=
  ((name, v.vtype), v) :: s

/-- An in-world object as the spec's data model describes it: a type tag,
an area membership reference, a spatial position, a tag string and its own
local-variable store. `oid` models the object's identity (the C++ pointer),
so "same instance" is equality of `oid`. -/
structure Object where
  oid : Nat
  otype : Nat
  area : Nat
  pos : Position
  tag : String
  store : LocalStore
  deriving DecidableEq

/-- The world's object table, owned by the module collaborator. -/
abbrev World := List Object

/-- Modelled from the spec: `getParamObject` reads the object-handle
parameter and resolves it through the world's handle table; an invalid or
null handle resolves to null. -/
def resolveHandle (w : World) (h : Option Nat) : Option Object :=
  match h with
  | none => none
  | some i => w.find? (fun o => o.oid == i)

/-- Mutation of the one object a handle resolved to: the first object in
the table carrying the identifier is replaced, mirroring that resolution
returns a pointer to that same object. -/
def updateObject (w : World) (i : Nat) (f : Object → Object) : World :=
  match w with
  | [] => []
  | o :: rest => if o.oid == i then f o :: rest else o :: updateObject rest i f

/-- `Functions::getLocalInt`: resolve the object parameter; when it
resolves, the return slot receives the Int local variable under the given
name; otherwise the slot keeps the declared return type's zero value. -/
def getLocalInt (w : World) (h : Option Nat) (name : String) : VValue :=
  match resolveHandle w h with
  | none => zeroValue .tInt
  | some o => .vInt (getVariable o.store name .tInt).getInt

/-- `Functions::getLocalFloat`: the Float analogue of `getLocalInt`. -/
def getLocalFloat (w : World) (h : Option Nat) (name : String) : VValue :=
  match resolveHandle w h with
  | none => zeroValue .tFloat
  | some o => .vFloat (getVariable o.store name .tFloat).getFloat

/-- `Functions::setLocalInt`: resolve the object parameter; when it
resolves, write the Int value under the given name into that object's
store; otherwise do nothing. -/
def setLocalInt (w : World) (h : Option Nat) (name : String) (value : Int) : World :=
  match resolveHandle w h with
  | none => w
  | some o => updateObject w o.oid (fun ob => { ob with store := setVariable ob.store name (.vInt value) })

/-- `Functions::getTag`: the return slot is first cleared to the empty
string; when the object parameter resolves, it receives the object's tag. -/
def getTag (w : World) (h : Option Nat) : String :=
  match resolveHandle w h with
  | none => ""
  | some o => o.tag

/-- The function context of one native call, as the spec's data model
describes it: parameter variables, a caller reference and a triggerer
reference (modelled as handles). -/
structure FunctionContext where
  params : List VValue
  caller : Option Nat
  triggerer : Option Nat
  deriving DecidableEq

/-- `Functions::getEnteringObject`: the return slot receives the context's
current triggerer. -/
def getEnteringObject (ctx : FunctionContext) : Option Nat :=
  ctx.triggerer

/-- `Functions::getExitingObject`: the return slot receives the context's
current triggerer. -/
def getExitingObject (ctx : FunctionContext) : Option Nat :=
  ctx.triggerer

/-- The `None` sentinel of the 1-based object-type enum. -/
def kObjectTypeNone : Nat := 0

/-- Modelled from the spec: the ceiling of the 1-based object-type enum
(`src/engines/nwn/types.h`, not part of this source tree). The spec fixes
`None = 0` and a `MAX` ceiling without a numeric value; ten covers the
nine concrete object types, and no verified statement depends on the
exact value. -/
def kObjectTypeMAX : Nat := 10

/-- The invalid-type rejection of both spatial queries: a candidate whose
type tag is the `None` sentinel or at least `MAX` is skipped. -/
def skipType (objectType : Nat) : Bool :=
  objectType == kObjectTypeNone || decide (kObjectTypeMAX ≤ objectType)

/-- The bitmask test of `getNearestObject`: the 1-based type tag is
converted to a bitfield value and checked against the type bitfield,
`type & (1 << (objectType - 1))`. -/
def typeMaskMatch (type objectType : Nat) : Bool :=
  type &&& (1 <<< (objectType - 1)) != 0

/-- The composite type filter of `getNearestObject`: the candidate's type
tag is valid and its bitfield value is set in the mask. -/
def typeFilterAccept (type objectType : Nat) : Bool :=
  !skipType objectType && typeMaskMatch type objectType

/-- Squared Euclidean distance between two positions. -/
def distSq (a b : Position) : Int :=
  (a.x - b.x) ^ 2 + (a.y - b.y) ^ 2 + (a.z - b.z) ^ 2

/-- Modelled from the spec: the total order `ObjectDistanceSort` sorts by,
ascending Euclidean distance to the reference object's position. Comparing
squared distances compares the distances themselves. -/
def distLE (target : Object) (a b : Object) : Prop :=
  distSq target.pos a.pos ≤ distSq target.pos b.pos

instance (target : Object) : DecidableRel (distLE target) :=
  fun _ _ => Int.decLe _ _

instance (target : Object) : IsTotal Object (distLE target) :=
  ⟨fun _ _ => le_total _ _⟩

instance (target : Object) : IsTrans Object (distLE target) :=
  ⟨fun _ _ _ hab hbc => le_trans hab hbc⟩

/-- The candidate-collection loop of `getNearestObject`: walk the cursor;
skip an entry when the downcast fails, when the candidate is the same
instance as the target, when its area differs from the target's, or when
its type tag is invalid; collect it when its bitfield value is set in the
mask. -/
def collectNearest (target : Object) (type : Nat) : List (Option Object) → List Object
  | [] => []
  | none :: rest => collectNearest target type rest
  | some o :: rest =>
    if o.oid == target.oid || o.area != target.area then
      collectNearest target type rest
    else if skipType o.otype then
      collectNearest target type rest
    else if typeMaskMatch type o.otype then
      o :: collectNearest target type rest
    else
      collectNearest target type rest

/-- The candidate-collection loop of `getNearestObjectByTag`: the same
walk without the bitmask test (the cursor itself is already restricted to
the tag by the collaborator's `findObjectsByTag`). -/
def collectByTag (target : Object) : List (Option Object) → List Object
  | [] => []
  | none :: rest => collectByTag target rest
  | some o :: rest =>
    if o.oid == target.oid || o.area != target.area then
      collectByTag target rest
    else if skipType o.otype then
      collectByTag target rest
    else
      o :: collectByTag target rest

/-- The conversion of the 1-based `nth` parameter into a 0-based offset:
`MAX<int32>(nth - 1, 0)`. -/
def nthOffset (nth : Int) : Nat :=
  (max (nth - 1) 0).toNat

/-- The selection loop over the sorted list: advance the iterator at most
`n` times, stopping at the end; return the element under the iterator when
one remains, otherwise keep the null return value. -/
def advanceNth : Nat → List Object → Option Object
  | _, [] => none
  | 0, o :: _ => some o
  | n + 1, _ :: rest => advanceNth n rest

/-- `Functions::getNearestObject`, with an effects flag recording whether
an enumeration cursor was obtained from the module. The return slot starts
as the null object handle; an unresolved reference object returns at once.
Otherwise the collected candidates are sorted by `ObjectDistanceSort`
(`std::list::sort`, a stable sort) and the entry at the clamped offset is
returned. -/
def getNearestObjectE (cursor : List (Option Object)) (type : Nat)
    (target? : Option Object) (nth : Int) : Option Object × Bool :=
  match target? with
  | none => (none, false)
  | some target =>
    (advanceNth (nthOffset nth) (List.insertionSort (distLE target) (collectNearest target type cursor)), true)

/-- The result of `Functions::getNearestObject`. -/
def getNearestObject (cursor : List (Option Object)) (type : Nat)
    (target? : Option Object) (nth : Int) : Option Object :=
  (getNearestObjectE cursor type target? nth).1

/-- `Functions::getNearestObjectByTag`, with two effects flags: whether the
reference object was resolved, and whether an enumeration cursor was
obtained. An empty tag returns before either; an unresolved reference
returns before the cursor is obtained. -/
def getNearestObjectByTagE (tag : String) (target? : Option Object)
    (cursor : List (Option Object)) (nth : Int) : Option Object × Bool × Bool :=
  if tag.isEmpty then (none, false, false)
  else
    match target? with
    | none => (none, true, false)
    | some target =>
      (advanceNth (nthOffset nth) (List.insertionSort (distLE target) (collectByTag target cursor)), true, true)

/-- The result of `Functions::getNearestObjectByTag`. -/
def getNearestObjectByTag (tag : String) (target? : Option Object)
    (cursor : List (Option Object)) (nth : Int) : Option Object :=
  (getNearestObjectByTagE tag target? cursor nth).1

/-- The acceptance predicate of `getNearestObject`'s collection loop as one
boolean: not the same instance as the target, in the target's area, and
accepted by the type filter. -/
def nearestPred (target : Object) (type : Nat) (o : Object) : Bool :=
  !(o.oid == target.oid) && (o.area == target.area) && typeFilterAccept type o.otype

/-- The acceptance predicate of `getNearestObjectByTag`'s collection loop
as one boolean: not the same instance as the target, in the target's area,
and of a valid object type. -/
def byTagPred (target : Object) (o : Object) : Bool :=
  !(o.oid == target.oid) && (o.area == target.area) && !skipType o.otype

/-- A sample reference object, in area 7 at the origin. -/
def objA : Object := ⟨1, 1, 7, ⟨0, 0, 0⟩, "alpha", []⟩

/-- A sample candidate in area 7 at squared distance 9 from `objA`. -/
def objB : Object := ⟨2, 1, 7, ⟨3, 0, 0⟩, "beta", []⟩

/-- A sample candidate in a different area, 8. -/
def objC : Object := ⟨3, 1, 8, ⟨1, 0, 0⟩, "beta", []⟩

/-- A sample candidate in area 7 at squared distance 25 from `objA`. -/
def objD : Object := ⟨4, 1, 7, ⟨5, 0, 0⟩, "beta", []⟩

/-- A sample enumeration cursor; the `none` entry is an object on which
the checked downcast fails. -/
def demoCursor : List (Option Object) := [some objB, none, some objC, some objD]

/-- A sample object for the local-variable store scenarios. -/
def objE : Object := ⟨9, 1, 7, ⟨0, 0, 0⟩, "eps", []⟩

/-- A sample world holding only `objE`. -/
def demoWorld : World := [objE]

/-! ## Bridging lemmas -/

/-- The iterator-advance loop returns exactly the list entry at the given
index. -/
theorem advanceNth_eq_get? (n : Nat) (l : List Object) : advanceNth n l = l.get? n := by
  induction l generalizing n with
  | nil => cases n <;> rfl
  | cons o rest ih => cases n with
    | zero => rfl
    | succ m => simpa [advanceNth] using ih m

/-- The collection loop of `getNearestObject` keeps, in enumeration order,
exactly the downcast-surviving cursor entries satisfying its acceptance
predicate. -/
theorem collectNearest_eq_filter (target : Object) (type : Nat)
    (cursor : List (Option Object)) :
    collectNearest target type cursor
      = (cursor.filterMap id).filter (nearestPred target type) := by
  induction cursor with
  | nil => rfl
  | cons e rest ih =>
    cases e with
    | none => simpa [collectNearest, List.filterMap_cons] using ih
    | some c =>
      simp only [collectNearest, List.filterMap_cons, id, List.filter_cons]
      cases h1 : c.oid == target.oid <;> cases h2 : c.area == target.area <;>
        cases h3 : skipType c.otype <;> cases h4 : typeMaskMatch type c.otype <;>
          simp [nearestPred, typeFilterAccept, h1, h2, h3, h4, ih, bne]

/-- The collection loop of `getNearestObjectByTag` keeps, in enumeration
order, exactly the downcast-surviving cursor entries satisfying its
acceptance predicate. -/
theorem collectByTag_eq_filter (target : Object) (cursor : List (Option Object)) :
    collectByTag target cursor = (cursor.filterMap id).filter (byTagPred target) := by
  induction cursor with
  | nil => rfl
  | cons e rest ih =>
    cases e with
    | none => simpa [collectByTag, List.filterMap_cons] using ih
    | some c =>
      simp only [collectByTag, List.filterMap_cons, id, List.filter_cons]
      cases h1 : c.oid == target.oid <;> cases h2 : c.area == target.area <;>
        cases h3 : skipType c.otype <;>
          simp [byTagPred, h1, h2, h3, ih, bne]

/-- Unpacking the acceptance predicate of `getNearestObject`. -/
theorem nearestPred_spec {target : Object} {type : Nat} {o : Object}
    (h : nearestPred target type o = true) :
    o.oid ≠ target.oid ∧ o.area = target.area ∧ typeFilterAccept type o.otype = true := by
  have h2 : (o.oid ≠ target.oid ∧ o.area = target.area) ∧ typeFilterAccept type o.otype = true := by
    simpa [nearestPred, Bool.and_eq_true, beq_iff_eq] using h
  exact ⟨h2.1.1, h2.1.2, h2.2⟩

/-- Unpacking the acceptance predicate of `getNearestObjectByTag`. -/
theorem byTagPred_spec {target : Object} {o : Object}
    (h : byTagPred target o = true) :
    o.oid ≠ target.oid ∧ o.area = target.area ∧ skipType o.otype = false := by
  have h2 : (o.oid ≠ target.oid ∧ o.area = target.area) ∧ skipType o.otype = false := by
    simpa [byTagPred, Bool.and_eq_true, beq_iff_eq, Bool.not_eq_true'] using h
  exact ⟨h2.1.1, h2.1.2, h2.2⟩

/-- The invalid-type rejection passes exactly the tags strictly between
the `None` sentinel and the `MAX` ceiling. -/
theorem skipType_false_iff (t : Nat) :
    skipType t = false ↔ (kObjectTypeNone < t ∧ t < kObjectTypeMAX) := by
  simp [skipType, kObjectTypeNone, kObjectTypeMAX]
  omega

/-- The bitfield test of the collection loop is the test of bit
`objectType - 1` of the mask. -/
theorem typeMaskMatch_iff_testBit (type t : Nat) :
    typeMaskMatch type t = true ↔ Nat.testBit type (t - 1) = true := by
  unfold typeMaskMatch
  rw [Nat.one_shiftLeft, Nat.and_two_pow]
  cases h : type.testBit (t - 1) <;> simp [h]

/-- A successful `getNearestObject` result was collected by its loop. -/
theorem getNearestObject_result_mem {cursor : List (Option Object)} {type : Nat}
    {target : Object} {nth : Int} {o : Object}
    (h : getNearestObject cursor type (some target) nth = some o) :
    o ∈ collectNearest target type cursor := by
  simp only [getNearestObject, getNearestObjectE] at h
  rw [advanceNth_eq_get?] at h
  exact (List.mem_insertionSort _).mp (List.get?_mem h)

/-- A successful `getNearestObjectByTag` result was collected by its loop. -/
theorem getNearestObjectByTag_result_mem {tag : String} {cursor : List (Option Object)}
    {target : Object} {nth : Int} {o : Object}
    (h : getNearestObjectByTag tag (some target) cursor nth = some o) :
    o ∈ collectByTag target cursor := by
  simp only [getNearestObjectByTag, getNearestObjectByTagE] at h
  by_cases ht : tag.isEmpty <;> simp [ht] at h
  rw [advanceNth_eq_get?] at h
  exact (List.mem_insertionSort _).mp (List.get?_mem h)

/-- Inserting into a list by ascending distance: the entries of any one
distance class keep their order, the inserted element joining its class in
front of no earlier member of the class that was skipped. -/
theorem filter_distSq_orderedInsert (target a : Object) (s : List Object) (d : Int) :
    (List.orderedInsert (distLE target) a s).filter (fun o => distSq target.pos o.pos == d)
      = (if distSq target.pos a.pos == d then [a] else [])
          ++ s.filter (fun o => distSq target.pos o.pos == d) := by
  induction s with
  | nil =>
    cases h : (distSq target.pos a.pos == d) <;> simp [List.orderedInsert, List.filter, h]
  | cons b t ih =>
    by_cases hle : distLE target a b
    · simp only [List.orderedInsert, if_pos hle]
      cases h : (distSq target.pos a.pos == d) <;> simp [List.filter, h]
    · have hblt : distSq target.pos b.pos < distSq target.pos a.pos := by
        simpa [distLE, not_le] using hle
      simp only [List.orderedInsert, if_neg hle, List.filter_cons]
      cases hb : (distSq target.pos b.pos == d)
      · simp only [ih, hb, cond_false]
        cases h : (distSq target.pos a.pos == d) <;> simp [h]
      · have hbd : distSq target.pos b.pos = d := by simpa [beq_iff_eq] using hb
        have ha : (distSq target.pos a.pos == d) = false := by
          simp only [beq_eq_false_iff_ne, ne_eq]
          omega
        simp [ih, hb, ha]

/-- The stable sort of the spatial queries keeps each distance class in
enumeration order. -/
theorem filter_distSq_insertionSort (target : Object) (l : List Object) (d : Int) :
    (List.insertionSort (distLE target) l).filter (fun o => distSq target.pos o.pos == d)
      = l.filter (fun o => distSq target.pos o.pos == d) := by
  induction l with
  | nil => rfl
  | cons a t ih =>
    simp only [List.insertionSort]
    rw [filter_distSq_orderedInsert]
    cases h : (distSq target.pos a.pos == d) <;> simp [h, ih, List.filter_cons]

/-- Resolving a handle after mutating the object it resolved to yields the
mutated object, provided the mutation keeps the identifier. -/
theorem resolveHandle_updateObject (w : World) (i : Nat) (f : Object → Object)
    (hf : ∀ o, (f o).oid = o.oid) (o : Object)
    (hres : resolveHandle w (some i) = some o) :
    resolveHandle (updateObject w i f) (some i) = some (f o) := by
  induction w with
  | nil => simp [resolveHandle] at hres
  | cons a rest ih =>
    simp only [resolveHandle] at hres ⊢
    cases h : (a.oid == i)
    · simp only [List.find?_cons, h] at hres
      have hres2 : resolveHandle rest (some i) = some o := by
        simpa [resolveHandle] using hres
      have hstep := ih hres2
      simp only [resolveHandle] at hstep
      simp [updateObject, h, List.find?_cons, hstep]
    · simp only [List.find?_cons, h] at hres
      simp only [Option.some.injEq] at hres
      subst hres
      have hfo : ((f a).oid == i) = true := by
        rw [hf a]
        exact h
      simp [updateObject, h, List.find?_cons, hfo]

/-- An unchanged handle keeps resolving to an object with the handle's
identifier. -/
theorem resolveHandle_oid {w : World} {i : Nat} {o : Object}
    (hres : resolveHandle w (some i) = some o) : o.oid = i := by
  simpa using List.find?_some hres

/-- Reading back the entry a store write created. -/
theorem getVariable_setVariable_same (s : LocalStore) (name : String) (v : VValue) :
    getVariable (setVariable s name v) name v.vtype = v := by
  simp [getVariable, setVariable, List.lookup]

/-- A store write leaves every other `(name, type)` key unobserved. -/
theorem getVariable_setVariable_other (s : LocalStore) (name nm : String) (t : VType)
    (v : VValue) (hne : (nm, t) ≠ (name, v.vtype)) :
    getVariable (setVariable s name v) nm t = getVariable s nm t := by
  have hb : ((nm, t) == (name, v.vtype)) = false := by simpa using hne
  simp [getVariable, setVariable, List.lookup, hb]

/-! ## Claim theorems -/

/-- C1: `getNearestObject` returns the candidate at the nth-smallest
distance among the objects passing the area and type filters: the result
is the entry at the clamped 0-based offset of the collected candidate
list stably sorted ascending by distance (that list is a permutation of
the collected candidates and is sorted by `distLE`), any `nth ≤ 1` yields
offset 0 and thus the nearest candidate, and a clamped offset at or
beyond the number of collected candidates yields the null object
handle. -/
theorem getNearestObject_nth_smallest (cursor : List (Option Object)) (type : Nat)
    (target : Object) (nth : Int) :
    getNearestObject cursor type (some target) nth
        = (List.insertionSort (distLE target) (collectNearest target type cursor)).get?
            (nthOffset nth)
    ∧ List.Perm (List.insertionSort (distLE target) (collectNearest target type cursor))
        (collectNearest target type cursor)
    ∧ List.Sorted (distLE target)
        (List.insertionSort (distLE target) (collectNearest target type cursor))
    ∧ (nth ≤ 1 → nthOffset nth = 0)
    ∧ ((collectNearest target type cursor).length ≤ nthOffset nth →
        getNearestObject cursor type (some target) nth = none) := by
  refine ⟨?_, List.perm_insertionSort _ _, List.sorted_insertionSort _ _, ?_, ?_⟩
  · simp [getNearestObject, getNearestObjectE, advanceNth_eq_get?]
  · intro h
    have h1 : nth - 1 ≤ 0 := by omega
    simp [nthOffset, max_eq_right h1]
  · intro h
    have hlen := (List.perm_insertionSort (distLE target)
      (collectNearest target type cursor)).length_eq
    simp only [getNearestObject, getNearestObjectE, advanceNth_eq_get?]
    exact List.get?_eq_none.mpr (by omega)

/-- Witness for C1: `nth = 1` clamps to offset 0, and an `nth` beyond the
two collected candidates of the demo cursor returns the null handle. -/
theorem getNearestObject_nth_smallest_witness :
    nthOffset 1 = 0
    ∧ ((collectNearest objA 1 demoCursor).length ≤ nthOffset 9
        ∧ getNearestObject demoCursor 1 (some objA) 9 = none) :=
  ⟨(getNearestObject_nth_smallest demoCursor 1 objA 1).2.2.2.1 (by decide),
   ⟨by decide, (getNearestObject_nth_smallest demoCursor 1 objA 9).2.2.2.2 (by decide)⟩⟩

/-- C2: in `getNearestObject`'s collection loop, a candidate with a valid
type tag `t` passes the type filter iff bit `t - 1` of the supplied mask
is set; tags equal to the `None` sentinel or at least `MAX` never pass
for any mask; and every collected candidate passed the filter. -/
theorem getNearestObject_typeFilter_spec (type t : Nat) :
    ((0 < t ∧ t < kObjectTypeMAX) →
      (typeFilterAccept type t = true ↔ Nat.testBit type (t - 1) = true))
    ∧ ((t = kObjectTypeNone ∨ kObjectTypeMAX ≤ t) → typeFilterAccept type t = false)
    ∧ (∀ (target : Object) (cursor : List (Option Object)) (o : Object),
        o ∈ collectNearest target type cursor → typeFilterAccept type o.otype = true) := by
  refine ⟨?_, ?_, ?_⟩
  · intro hrange
    have hskip : skipType t = false := (skipType_false_iff t).mpr
      ⟨by simpa [kObjectTypeNone] using hrange.1, hrange.2⟩
    simp [typeFilterAccept, hskip, typeMaskMatch_iff_testBit]
  · intro hbad
    have hskip : skipType t = true := by
      cases hbad with
      | inl h => simp [skipType, h, kObjectTypeNone]
      | inr h => simp [skipType, h]
    simp [typeFilterAccept, hskip]
  · intro target cursor o hmem
    rw [collectNearest_eq_filter] at hmem
    exact (nearestPred_spec (List.mem_filter.mp hmem).2).2.2

/-- Witness for C2: tag 1 against mask bit 0; the `None` tag and the tag
`MAX` rejected under an all-ones 32-bit mask. -/
theorem getNearestObject_typeFilter_spec_witness :
    (typeFilterAccept 1 1 = true ↔ Nat.testBit 1 0 = true)
    ∧ typeFilterAccept 4294967295 0 = false
    ∧ typeFilterAccept 4294967295 10 = false :=
  ⟨(getNearestObject_typeFilter_spec 1 1).1 (by decide),
   (getNearestObject_typeFilter_spec 4294967295 0).2.1 (Or.inl rfl),
   (getNearestObject_typeFilter_spec 4294967295 10).2.1 (Or.inr (by decide))⟩

/-- C3: neither spatial query ever returns the reference object itself,
nor an object whose area differs from the reference object's area. -/
theorem spatial_queries_not_self_same_area (cursor : List (Option Object)) (type : Nat)
    (tag : String) (target : Object) (nth : Int) (o : Object) :
    (getNearestObject cursor type (some target) nth = some o →
      o.oid ≠ target.oid ∧ o.area = target.area)
    ∧ (getNearestObjectByTag tag (some target) cursor nth = some o →
      o.oid ≠ target.oid ∧ o.area = target.area) := by
  constructor
  · intro h
    have hmem := getNearestObject_result_mem h
    rw [collectNearest_eq_filter] at hmem
    have hp := nearestPred_spec (List.mem_filter.mp hmem).2
    exact ⟨hp.1, hp.2.1⟩
  · intro h
    have hmem := getNearestObjectByTag_result_mem h
    rw [collectByTag_eq_filter] at hmem
    have hp := byTagPred_spec (List.mem_filter.mp hmem).2
    exact ⟨hp.1, hp.2.1⟩

/-- Witness for C3: both demo queries return `objB`, which is a different
instance than `objA` and shares its area. -/
theorem spatial_queries_not_self_same_area_witness :
    (objB.oid ≠ objA.oid ∧ objB.area = objA.area)
    ∧ (objB.oid ≠ objA.oid ∧ objB.area = objA.area) :=
  ⟨(spatial_queries_not_self_same_area demoCursor 1 "beta" objA 1 objB).1 (by decide),
   (spatial_queries_not_self_same_area demoCursor 1 "beta" objA 1 objB).2 (by decide)⟩

/-- C4: in both spatial queries, the collected candidates are sorted
ascending by Euclidean distance to the reference's position with a stable
sort: the sorted list is a permutation of the collected list, it is
sorted by `distLE`, and every equal-distance class keeps its enumeration
order. -/
theorem spatial_sort_stable_by_distance (cursor : List (Option Object)) (type : Nat)
    (target : Object) :
    (List.Perm (List.insertionSort (distLE target) (collectNearest target type cursor))
        (collectNearest target type cursor)
      ∧ List.Sorted (distLE target)
          (List.insertionSort (distLE target) (collectNearest target type cursor))
      ∧ ∀ d : Int,
          (List.insertionSort (distLE target) (collectNearest target type cursor)).filter
              (fun o => distSq target.pos o.pos == d)
            = (collectNearest target type cursor).filter
                (fun o => distSq target.pos o.pos == d))
    ∧ (List.Perm (List.insertionSort (distLE target) (collectByTag target cursor))
        (collectByTag target cursor)
      ∧ List.Sorted (distLE target)
          (List.insertionSort (distLE target) (collectByTag target cursor))
      ∧ ∀ d : Int,
          (List.insertionSort (distLE target) (collectByTag target cursor)).filter
              (fun o => distSq target.pos o.pos == d)
            = (collectByTag target cursor).filter
                (fun o => distSq target.pos o.pos == d)) :=
  ⟨⟨List.perm_insertionSort _ _, List.sorted_insertionSort _ _,
    fun d => filter_distSq_insertionSort target _ d⟩,
   ⟨List.perm_insertionSort _ _, List.sorted_insertionSort _ _,
    fun d => filter_distSq_insertionSort target _ d⟩⟩

/-- C5: an unresolved reference object makes both queries return the null
object handle immediately, with no enumeration cursor obtained. -/
theorem unresolved_reference_returns_null_no_enumeration
    (cursor : List (Option Object)) (type : Nat) (tag : String) (nth : Int) :
    getNearestObjectE cursor type none nth = (none, false)
    ∧ (getNearestObjectByTagE tag none cursor nth).1 = none
    ∧ (getNearestObjectByTagE tag none cursor nth).2.2 = false := by
  refine ⟨rfl, ?_, ?_⟩ <;>
    by_cases h : tag.isEmpty <;> simp [getNearestObjectByTagE, h]

/-- C6: an empty tag makes `getNearestObjectByTag` return the null object
handle before the reference object is resolved and before any enumeration
cursor is obtained. -/
theorem byTag_empty_tag_short_circuit (target? : Option Object)
    (cursor : List (Option Object)) (nth : Int) :
    getNearestObjectByTagE "" target? cursor nth = (none, false, false) := rfl

/-- C7: local-variable store round trip on an object a handle resolves
to: writing Int 5 under "x" makes the Int read of "x" return 5; an Int
read of a never-written name returns 0; and the Int write leaves the
Float read of "x" unchanged, entries being segregated by name and type. -/
theorem localStore_roundTrip (w : World) (i : Nat) (o : Object) (nm : String)
    (hres : resolveHandle w (some i) = some o)
    (hnm : o.store.lookup (nm, VType.tInt) = none) :
    getLocalInt (setLocalInt w (some i) "x" 5) (some i) "x" = VValue.vInt 5
    ∧ getLocalInt w (some i) nm = VValue.vInt 0
    ∧ getLocalFloat (setLocalInt w (some i) "x" 5) (some i) "x"
        = getLocalFloat w (some i) "x" := by
  have hup : resolveHandle (setLocalInt w (some i) "x" 5) (some i)
      = some { o with store := setVariable o.store "x" (VValue.vInt 5) } := by
    have hset : setLocalInt w (some i) "x" 5
        = updateObject w o.oid
            (fun ob => { ob with store := setVariable ob.store "x" (VValue.vInt 5) }) := by
      simp [setLocalInt, hres]
    rw [hset, resolveHandle_oid hres]
    have hthis := resolveHandle_updateObject w i
      (fun ob => { ob with store := setVariable ob.store "x" (VValue.vInt 5) })
      (fun _ => rfl) o hres
    simp only [resolveHandle_oid hres] at hthis
    exact hthis
  refine ⟨?_, ?_, ?_⟩
  · simp [getLocalInt, hup, getVariable, setVariable, List.lookup, VValue.vtype,
      VValue.getInt]
  · simp [getLocalInt, hres, getVariable, hnm, zeroValue, VValue.getInt]
  · simp only [getLocalFloat, hup, hres]
    rw [getVariable_setVariable_other]
    simp [VValue.vtype]

/-- Witness for C7: the round trip on the demo world's only object. -/
theorem localStore_roundTrip_witness :
    getLocalInt (setLocalInt demoWorld (some 9) "x" 5) (some 9) "x" = VValue.vInt 5
    ∧ getLocalInt demoWorld (some 9) "unset" = VValue.vInt 0
    ∧ getLocalFloat (setLocalInt demoWorld (some 9) "x" 5) (some 9) "x"
        = getLocalFloat demoWorld (some 9) "x" :=
  localStore_roundTrip demoWorld 9 objE "unset" (by decide) (by decide)

/-- C8: a call whose object parameter does not resolve is a no-op:
`getLocalInt` leaves the return slot at the Int zero value, `setLocalInt`
leaves the world unchanged, and `getTag` leaves the return slot as the
empty string. -/
theorem invalid_object_resolution_noop (w : World) (h : Option Nat) (name : String)
    (value : Int) (hres : resolveHandle w h = none) :
    getLocalInt w h name = zeroValue VType.tInt
    ∧ setLocalInt w h name value = w
    ∧ getTag w h = "" := by
  refine ⟨?_, ?_, ?_⟩ <;> simp [getLocalInt, setLocalInt, getTag, hres]

/-- Witness for C8: the null handle over the empty world. -/
theorem invalid_object_resolution_noop_witness :
    getLocalInt [] none "x" = zeroValue VType.tInt
    ∧ setLocalInt [] none "x" 3 = []
    ∧ getTag [] none = "" :=
  invalid_object_resolution_noop [] none "x" 3 rfl

/-- C9: `getEnteringObject` and `getExitingObject` each return exactly
the context's current triggerer, and depend on nothing else in the
context — there is no memory of prior triggerers. -/
theorem entering_exiting_return_current_triggerer (ctx c1 c2 : FunctionContext) :
    getEnteringObject ctx = ctx.triggerer
    ∧ getExitingObject ctx = ctx.triggerer
    ∧ (c1.triggerer = c2.triggerer →
        getEnteringObject c1 = getEnteringObject c2
        ∧ getExitingObject c1 = getExitingObject c2) :=
  ⟨rfl, rfl, fun h => ⟨h, h⟩⟩

/-- Witness for C9: two contexts agreeing only on the triggerer give the
same results. -/
theorem entering_exiting_return_current_triggerer_witness :
    getEnteringObject ⟨[], none, some 1⟩ = some 1
    ∧ getExitingObject ⟨[], none, some 1⟩ = some 1
    ∧ (getEnteringObject ⟨[VValue.vInt 3], some 2, some 1⟩
        = getEnteringObject ⟨[], none, some 1⟩
      ∧ getExitingObject ⟨[VValue.vInt 3], some 2, some 1⟩
        = getExitingObject ⟨[], none, some 1⟩) :=
  ⟨(entering_exiting_return_current_triggerer ⟨[], none, some 1⟩
      ⟨[], none, some 1⟩ ⟨[], none, some 1⟩).1,
   (entering_exiting_return_current_triggerer ⟨[], none, some 1⟩
      ⟨[], none, some 1⟩ ⟨[], none, some 1⟩).2.1,
   (entering_exiting_return_current_triggerer ⟨[], none, some 1⟩
      ⟨[VValue.vInt 3], some 2, some 1⟩ ⟨[], none, some 1⟩).2.2 rfl⟩

/-- C10: `getNearestObjectByTag` also applies the type-tag validity
filter: every object it returns has a type tag strictly above the `None`
sentinel and strictly below `MAX`. -/
theorem byTag_applies_type_validity_filter (tag : String) (target : Object)
    (cursor : List (Option Object)) (nth : Int) (o : Object)
    (h : getNearestObjectByTag tag (some target) cursor nth = some o) :
    kObjectTypeNone < o.otype ∧ o.otype < kObjectTypeMAX := by
  have hmem := getNearestObjectByTag_result_mem h
  rw [collectByTag_eq_filter] at hmem
  exact (skipType_false_iff o.otype).mp
    (byTagPred_spec (List.mem_filter.mp hmem).2).2.2

/-- Witness for C10: the demo tag query returns `objB`, whose type tag is
strictly between the sentinels. -/
theorem byTag_applies_type_validity_filter_witness :
    kObjectTypeNone < objB.otype ∧ objB.otype < kObjectTypeMAX :=
  byTag_applies_type_validity_filter "beta" objA demoCursor 1 objB (by decide)

end Xoreos
